import Mathlib

/-!
Shallow embedding of the forexx trading pipeline — level merger, analysis
engine, pattern detectors, signal generator and risk manager — together
with proofs and refutations of the specification's claims.

Modelling conventions: Python floats are modelled as rationals (`ℚ`);
Python's `abs` is `pyAbs`; Python's `sorted` (a stable ascending sort) is
`List.insertionSort (· ≤ ·)`; division is total rational division, and
every theorem whose executions could divide by zero carries the positivity
hypotheses that rule it out.
-/

namespace Forexx

/-- Python's `abs` on rationals. -/
def pyAbs (x : ℚ) : ℚ := if x < 0 then -x else x

theorem pyAbs_eq_abs (x : ℚ) : pyAbs x = |x| := by
  unfold pyAbs
  rcases lt_trichotomy x 0 with h | h | h
  · rw [if_pos h, abs_of_neg h]
  · simp [h]
  · rw [if_neg (not_lt.mpr h.le), abs_of_pos h]

theorem pyAbs_of_nonneg {x : ℚ} (h : 0 ≤ x) : pyAbs x = x := by
  rw [pyAbs_eq_abs, abs_of_nonneg h]

/-! ### Level merger (`merge_close_levels` in `src/core/utils.py`)

The identical routine appears as `_merge_levels` (default threshold
`0.0005`) in `analysis_engine.py`, `ict_strategy.py`,
`price_action_strategy.py` and `smc_strategy.py`; all are embedded by
`mergeCloseLevels`. -/

/-- The single merging pass of `merge_close_levels`: `m` is the current
last kept level (`merged[-1]`), `vs` the remaining ascending levels.  A
level within the relative `threshold` of `m` is averaged into `m`,
otherwise `m` is frozen and the level starts a new kept entry. -/
def mergeLoop (threshold : ℚ) (m : ℚ) : List ℚ → List ℚ
  | [] => [m]
  | v :: vs =>
    if pyAbs (v - m) / m ≤ threshold then mergeLoop threshold ((m + v) / 2) vs
    else m :: mergeLoop threshold v vs

/-- `merge_close_levels(levels, threshold)`: sort ascending, then one pass
that averages any level whose relative distance to the previous kept level
is at most `threshold` into that level. -/
def mergeCloseLevels (levels : List ℚ) (threshold : ℚ) : List ℚ :=
  match List.insertionSort (· ≤ ·) levels with
  | [] => []
  | l0 :: rest => mergeLoop threshold l0 rest

/-- Relative gap between a kept level and its successor exceeds the
tolerance: the no-two-adjacent-levels-within-tolerance relation. -/
def gapGT (threshold a b : ℚ) : Prop := threshold < (b - a) / a

theorem mergeLoop_ne_nil (t m : ℚ) (vs : List ℚ) : mergeLoop t m vs ≠ [] := by
  induction vs generalizing m with
  | nil => simp [mergeLoop]
  | cons v vs ih =>
    unfold mergeLoop
    by_cases h : pyAbs (v - m) / m ≤ t
    · simpa [h] using ih ((m + v) / 2)
    · simp [h]

/-- Invariants of the merging pass: starting from a positive open level
`m` that is a lower bound of the (ascending) remaining input, the output
is ascending, adjacent kept levels are farther apart than the tolerance,
and every output level is positive and at least `m`. -/
theorem mergeLoop_spec (t : ℚ) (vs : List ℚ) :
    ∀ m : ℚ, 0 < m → (∀ v ∈ vs, 0 < v) → (∀ v ∈ vs, m ≤ v) →
    vs.Pairwise (· ≤ ·) →
    (mergeLoop t m vs).Pairwise (· ≤ ·) ∧
    (mergeLoop t m vs).Chain' (gapGT t) ∧
    (∀ x ∈ mergeLoop t m vs, 0 < x) ∧
    (∀ x ∈ mergeLoop t m vs, m ≤ x) := by
  induction vs with
  | nil =>
    intro m hm _ _ _
    refine ⟨by simp [mergeLoop], by simp [mergeLoop], ?_, ?_⟩ <;>
      simp [mergeLoop, hm]
  | cons v vs ih =>
    intro m hm hpos hge hpw
    have hv : 0 < v := hpos v (List.mem_cons_self _ _)
    have hmv : m ≤ v := hge v (List.mem_cons_self _ _)
    have hvle : ∀ w ∈ vs, v ≤ w := fun w hw => (List.pairwise_cons.mp hpw).1 w hw
    have hpw' : vs.Pairwise (· ≤ ·) := (List.pairwise_cons.mp hpw).2
    have hpos' : ∀ w ∈ vs, 0 < w := fun w hw => hpos w (List.mem_cons_of_mem _ hw)
    unfold mergeLoop
    by_cases h : pyAbs (v - m) / m ≤ t
    · -- merge branch: average v into the open level
      rw [if_pos h]
      have hm' : 0 < (m + v) / 2 := by positivity
      have hmm' : m ≤ (m + v) / 2 := by linarith
      have hm'v : (m + v) / 2 ≤ v := by linarith
      obtain ⟨h1, h2, h3, h4⟩ :=
        ih ((m + v) / 2) hm' hpos' (fun w hw => le_trans hm'v (hvle w hw)) hpw'
      exact ⟨h1, h2, h3, fun x hx => le_trans hmm' (h4 x hx)⟩
    · -- append branch: freeze m, open a new level at v
      rw [if_neg h]
      obtain ⟨h1, h2, h3, h4⟩ := ih v hv hpos' hvle hpw'
      have hgap : gapGT t m v := by
        have habs : pyAbs (v - m) = v - m := pyAbs_of_nonneg (by linarith)
        have := lt_of_not_le h
        rw [habs] at this
        exact this
      refine ⟨?_, ?_, ?_, ?_⟩
      · exact List.pairwise_cons.mpr ⟨fun x hx => le_trans hmv (h4 x hx), h1⟩
      · rcases hout : mergeLoop t v vs with _ | ⟨h0, tl⟩
        · exact absurd hout (mergeLoop_ne_nil t v vs)
        · rw [hout] at h2 h4
          refine List.chain'_cons.mpr ⟨?_, h2⟩
          have hvh0 : v ≤ h0 := h4 h0 (List.mem_cons_self _ _)
          have : (v - m) / m ≤ (h0 - m) / m :=
            (div_le_div_iff_of_pos_right hm).mpr (by linarith)
          exact lt_of_lt_of_le hgap this
      · intro x hx
        rcases List.mem_cons.mp hx with rfl | hx
        · exact hm
        · exact h3 x hx
      · intro x hx
        rcases List.mem_cons.mp hx with rfl | hx
        · exact le_refl _
        · exact le_trans hmv (h4 x hx)

/-- When the open level and the remaining levels already satisfy the gap
property, the merging pass keeps the list unchanged. -/
theorem mergeLoop_of_gaps (t : ℚ) (vs : List ℚ) :
    ∀ m : ℚ, 0 < m → (∀ v ∈ vs, 0 < v) →
    (m :: vs).Pairwise (· ≤ ·) → (m :: vs).Chain' (gapGT t) →
    mergeLoop t m vs = m :: vs := by
  induction vs with
  | nil => intro m _ _ _ _; simp [mergeLoop]
  | cons v vs ih =>
    intro m hm hpos hpw hch
    have hv : 0 < v := hpos v (List.mem_cons_self _ _)
    have hmv : m ≤ v := (List.pairwise_cons.mp hpw).1 v (List.mem_cons_self _ _)
    have hgap : gapGT t m v := (List.chain'_cons.mp hch).1
    have hcond : ¬ pyAbs (v - m) / m ≤ t := by
      rw [pyAbs_of_nonneg (by linarith : (0:ℚ) ≤ v - m)]
      exact not_le.mpr hgap
    unfold mergeLoop
    rw [if_neg hcond]
    have hpw' : (v :: vs).Pairwise (· ≤ ·) := (List.pairwise_cons.mp hpw).2
    have hch' : (v :: vs).Chain' (gapGT t) := (List.chain'_cons.mp hch).2
    rw [ih v hv (fun w hw => hpos w (List.mem_cons_of_mem _ hw)) hpw' hch']

theorem mergeCloseLevels_pos (levels : List ℚ) (t : ℚ)
    (hpos : ∀ l ∈ levels, 0 < l) :
    ∀ x ∈ mergeCloseLevels levels t, 0 < x := by
  unfold mergeCloseLevels
  have hperm := List.perm_insertionSort (α := ℚ) (· ≤ ·) levels
  rcases hs : List.insertionSort (· ≤ ·) levels with _ | ⟨l0, rest⟩
  · simp
  · rw [hs] at hperm
    have hpos' : ∀ x ∈ l0 :: rest, 0 < x := fun x hx => hpos x (hperm.subset hx)
    have hsorted : (l0 :: rest).Pairwise (· ≤ ·) := by
      have := List.sorted_insertionSort (α := ℚ) (· ≤ ·) levels
      rw [hs] at this
      exact this
    obtain ⟨_, _, h3, _⟩ := mergeLoop_spec t rest l0
      (hpos' l0 (List.mem_cons_self _ _))
      (fun w hw => hpos' w (List.mem_cons_of_mem _ hw))
      (fun w hw => (List.pairwise_cons.mp hsorted).1 w hw)
      (List.pairwise_cons.mp hsorted).2
    exact h3

theorem mergeCloseLevels_sorted_gap (levels : List ℚ) (t : ℚ)
    (hpos : ∀ l ∈ levels, 0 < l) :
    (mergeCloseLevels levels t).Sorted (· ≤ ·) ∧
    (mergeCloseLevels levels t).Chain' (gapGT t) := by
  unfold mergeCloseLevels
  have hperm := List.perm_insertionSort (α := ℚ) (· ≤ ·) levels
  rcases hs : List.insertionSort (· ≤ ·) levels with _ | ⟨l0, rest⟩
  · simp
  · rw [hs] at hperm
    have hpos' : ∀ x ∈ l0 :: rest, 0 < x := fun x hx => hpos x (hperm.subset hx)
    have hsorted : (l0 :: rest).Pairwise (· ≤ ·) := by
      have := List.sorted_insertionSort (α := ℚ) (· ≤ ·) levels
      rw [hs] at this
      exact this
    obtain ⟨h1, h2, _, _⟩ := mergeLoop_spec t rest l0
      (hpos' l0 (List.mem_cons_self _ _))
      (fun w hw => hpos' w (List.mem_cons_of_mem _ hw))
      (fun w hw => (List.pairwise_cons.mp hsorted).1 w hw)
      (List.pairwise_cons.mp hsorted).2
    exact ⟨h1, h2⟩

/-- A sorted, everywhere-positive list whose adjacent gaps all exceed the
tolerance is a fixed point of the merger. -/
theorem mergeCloseLevels_of_fixed (l : List ℚ) (t : ℚ)
    (hsor : l.Sorted (· ≤ ·)) (hgap : l.Chain' (gapGT t))
    (hpos : ∀ x ∈ l, 0 < x) :
    mergeCloseLevels l t = l := by
  unfold mergeCloseLevels
  rw [List.Sorted.insertionSort_eq hsor]
  cases l with
  | nil => rfl
  | cons h0 tl =>
    exact mergeLoop_of_gaps t tl h0 (hpos h0 (List.mem_cons_self _ _))
      (fun w hw => hpos w (List.mem_cons_of_mem _ hw)) hsor hgap

theorem mergeCloseLevels_idem (levels : List ℚ) (t : ℚ)
    (hpos : ∀ l ∈ levels, 0 < l) :
    mergeCloseLevels (mergeCloseLevels levels t) t = mergeCloseLevels levels t := by
  obtain ⟨hsor, hgap⟩ := mergeCloseLevels_sorted_gap levels t hpos
  exact mergeCloseLevels_of_fixed _ t hsor hgap (mergeCloseLevels_pos levels t hpos)

/-! ### Timeframe summarizer (`AnalysisEngine._create_timeframe_summary`) -/

/-- The per-strategy slice of one timeframe's detector output consumed by
`_create_timeframe_summary`: directional signal, strength 0–100, the
support/resistance levels and the named patterns. -/
structure DetectorResult where
  signal : String
  strength : ℚ
  supportLevels : List ℚ
  resistanceLevels : List ℚ
  patterns : List String
deriving DecidableEq, Repr

/-- The summary `_create_timeframe_summary` builds for one timeframe. -/
structure TimeframeSummary where
  signal : String
  confidence : String
  strength : ℚ
  buySignals : Nat
  sellSignals : Nat
  supportLevels : List ℚ
  resistanceLevels : List ℚ
  keyPatterns : List String
deriving DecidableEq, Repr

/-- `_extract_key_patterns`: prefix each strategy's pattern labels. -/
def extractKeyPatterns (ict smc pa : DetectorResult) : List String :=
  ict.patterns.map (fun p => "ICT: " ++ p) ++
  smc.patterns.map (fun p => "SMC: " ++ p) ++
  pa.patterns.map (fun p => "PA: " ++ p)

/-- `AnalysisEngine._merge_levels` (same body as `merge_close_levels`,
default threshold `0.0005`), applied only to non-empty lists. -/
def engineMergeLevels (levels : List ℚ) : List ℚ :=
  if levels = [] then [] else mergeCloseLevels levels (5 / 10000)

/-- `AnalysisEngine._create_timeframe_summary`: majority vote between buy
and sell counts, agreement-based confidence tier, arithmetic-mean strength
and merged level union. -/
def createTimeframeSummary (ict smc pa : DetectorResult) : TimeframeSummary :=
  let signals := [ict.signal, smc.signal, pa.signal]
  let buyCount := signals.countP (· = "buy")
  let sellCount := signals.countP (· = "sell")
  let finalSignal :=
    if buyCount > sellCount then "buy"
    else if sellCount > buyCount then "sell"
    else "neutral"
  let confidence :=
    if buyCount = 3 ∨ sellCount = 3 then "high"
    else if buyCount = 2 ∨ sellCount = 2 then "medium"
    else "low"
  let avgStrength := (ict.strength + smc.strength + pa.strength) / 3
  let supports := ict.supportLevels ++ smc.supportLevels ++ pa.supportLevels
  let resistances := ict.resistanceLevels ++ smc.resistanceLevels ++ pa.resistanceLevels
  { signal := finalSignal
    confidence := confidence
    strength := avgStrength
    buySignals := buyCount
    sellSignals := sellCount
    supportLevels := engineMergeLevels supports
    resistanceLevels := engineMergeLevels resistances
    keyPatterns := extractKeyPatterns ict smc pa }

/-! ### Cross-timeframe aggregation (`AnalysisEngine._create_summary`) -/

/-- The five known timeframes carrying a fixed prior weight. -/
inductive Timeframe | M5 | M15 | H1 | H4 | D1
deriving DecidableEq, Repr

/-- The fixed prior weights of `_create_summary`
(`M5=0.05, M15=0.10, H1=0.20, H4=0.30, D1=0.35`). -/
def timeframeWeight : Timeframe → ℚ
  | .M5 => 5 / 100
  | .M15 => 10 / 100
  | .H1 => 20 / 100
  | .H4 => 30 / 100
  | .D1 => 35 / 100

/-- Total prior weight of the timeframes present in the results. -/
def totalWeight (present : List Timeframe) : ℚ :=
  (present.map timeframeWeight).sum

/-- The weight of one timeframe after `_create_summary`'s renormalization
(`timeframe_weights[tf] /= total_weight`, applied when the total is
positive and only to present timeframes). -/
def renormWeight (present : List Timeframe) (tf : Timeframe) : ℚ :=
  if 0 < totalWeight present ∧ tf ∈ present then
    timeframeWeight tf / totalWeight present
  else timeframeWeight tf

/-- The sentiment step of `_create_summary`: a positive news impact adds
`0.1 * min(impact, 1.0)` to the buy weight, a negative one adds
`0.1 * min(abs(impact), 1.0)` to the sell weight. -/
def applySentiment (newsImpact buyWeight sellWeight : ℚ) : ℚ × ℚ :=
  if 0 < newsImpact then (buyWeight + 1 / 10 * min newsImpact 1, sellWeight)
  else if newsImpact < 0 then (buyWeight, sellWeight + 1 / 10 * min (pyAbs newsImpact) 1)
  else (buyWeight, sellWeight)

/-- `AnalysisEngine._calculate_success_probability`: base probability from
signal strength, a confirmation bonus of 5 points per agreeing timeframe
capped at 20, a news correction bounded by +10/−15, a higher-timeframe
trend correction bounded by +15/−20, all clamped to [0, 100].  `tfSignals`
are the per-timeframe summary signals, `trendInfo` the `(trend,
trend_strength)` of the first of D1, H4 that carries price-action data,
`newsImpact` the news analyzer impact when present. -/
def calculateSuccessProbability (tfSignals : List String) (sig : String)
    (signalStrength : ℚ) (newsImpact : Option ℚ)
    (trendInfo : Option (String × ℚ)) : ℚ :=
  let baseProbability := signalStrength
  let timeframeConfirmations := tfSignals.countP (· = sig)
  let confirmationBonus := min ((timeframeConfirmations : ℚ) * 5) 20
  let newsCorrection :=
    match newsImpact with
    | none => 0
    | some impact =>
      if (sig = "buy" ∧ 0 < impact) ∨ (sig = "sell" ∧ impact < 0) then
        min (pyAbs impact * 10) 10
      else if (sig = "buy" ∧ impact < 0) ∨ (sig = "sell" ∧ 0 < impact) then
        -min (pyAbs impact * 10) 15
      else 0
  let trendCorrection :=
    match trendInfo with
    | none => 0
    | some (trend, trendStrength) =>
      if (sig = "buy" ∧ trend = "bullish") ∨ (sig = "sell" ∧ trend = "bearish") then
        min (trendStrength * (15 / 100)) 15
      else if (sig = "buy" ∧ trend = "bearish") ∨ (sig = "sell" ∧ trend = "bullish") then
        -min (trendStrength * (20 / 100)) 20
      else 0
  let totalProbability := baseProbability + confirmationBonus + newsCorrection + trendCorrection
  max 0 (min totalProbability 100)

/-! ### Price-action detector signal (`PriceActionStrategy._generate_signal`) -/

/-- Whether `pat` occurs as a contiguous run inside the character list. -/
def substrAux (pat : List Char) : List Char → Bool
  | [] => pat.isEmpty
  | c :: tl => pat.isPrefixOf (c :: tl) || substrAux pat tl

/-- Substring test, Python's `needle in haystack` on strings. -/
def strContains (haystack needle : String) : Bool :=
  substrAux needle.toList haystack.toList

/-- The classic pivot levels consulted by `_generate_signal`
(`analysis_results["pivots"]["classic"]`); each key may be absent. -/
structure ClassicPivots where
  s1 : Option ℚ
  s2 : Option ℚ
  s3 : Option ℚ
  r1 : Option ℚ
  r2 : Option ℚ
  r3 : Option ℚ
deriving DecidableEq, Repr

/-- The slice of the price-action analysis results that
`_generate_signal` reads: trend and its strength, candle patterns
(`signal`, `strength`), momentum signals (`signal`, `strength`), named
chart patterns, classic pivots (`none` models an empty pivots dict) and
the latest close. -/
structure PAInput where
  trend : String
  trendStrength : ℚ
  candlePatterns : List (String × ℚ)
  momentumSignals : List (String × ℚ)
  patterns : List String
  pivots : Option ClassicPivots
  lastPrice : ℚ
deriving DecidableEq, Repr

/-- Buy points for one named chart pattern (+2.5 when the label mentions
Bullish/Support/Bottom). -/
def paPatternBuyPoints (p : String) : ℚ :=
  if strContains p "Bullish" ∨ strContains p "Support" ∨ strContains p "Bottom" then 5 / 2
  else 0

/-- Sell points for one named chart pattern (+2.5 when the label mentions
Bearish/Resistance/Top and the buy branch did not fire). -/
def paPatternSellPoints (p : String) : ℚ :=
  if strContains p "Bullish" ∨ strContains p "Support" ∨ strContains p "Bottom" then 0
  else if strContains p "Bearish" ∨ strContains p "Resistance" ∨ strContains p "Top" then 5 / 2
  else 0

/-- Buy points for a support pivot `s_k` (1.5/1.0/0.5 for k = 1/2/3) when
the latest price sits within 0.5 % above it. -/
def paPivotBuyPoints (lastPrice : ℚ) (k : Nat) (level? : Option ℚ) : ℚ :=
  match level? with
  | none => 0
  | some level =>
    if 0 < (lastPrice - level) / lastPrice ∧ (lastPrice - level) / lastPrice < 5 / 1000 then
      ((4 : ℚ) - k) * (5 / 10)
    else 0

/-- Sell points for a resistance pivot `r_k` when the latest price sits
within 0.5 % below it. -/
def paPivotSellPoints (lastPrice : ℚ) (k : Nat) (level? : Option ℚ) : ℚ :=
  match level? with
  | none => 0
  | some level =>
    if 0 < (level - lastPrice) / lastPrice ∧ (level - lastPrice) / lastPrice < 5 / 1000 then
      ((4 : ℚ) - k) * (5 / 10)
    else 0

/-- The buy-score accumulator of `PriceActionStrategy._generate_signal`. -/
def paBuyScore (inp : PAInput) : ℚ :=
  (if inp.trend = "bullish" then inp.trendStrength / 20 else 0) +
  (inp.candlePatterns.map (fun p => if p.1 = "bullish" then p.2 / 20 else 0)).sum +
  (inp.momentumSignals.map (fun p => if p.1 = "buy" then p.2 / 20 else 0)).sum +
  (inp.patterns.map paPatternBuyPoints).sum +
  (match inp.pivots with
   | none => 0
   | some pv =>
     paPivotBuyPoints inp.lastPrice 1 pv.s1 + paPivotBuyPoints inp.lastPrice 2 pv.s2 +
     paPivotBuyPoints inp.lastPrice 3 pv.s3)

/-- The sell-score accumulator of `PriceActionStrategy._generate_signal`. -/
def paSellScore (inp : PAInput) : ℚ :=
  (if inp.trend = "bearish" then inp.trendStrength / 20 else 0) +
  (inp.candlePatterns.map (fun p => if p.1 = "bearish" then p.2 / 20 else 0)).sum +
  (inp.momentumSignals.map (fun p => if p.1 = "sell" then p.2 / 20 else 0)).sum +
  (inp.patterns.map paPatternSellPoints).sum +
  (match inp.pivots with
   | none => 0
   | some pv =>
     paPivotSellPoints inp.lastPrice 1 pv.r1 + paPivotSellPoints inp.lastPrice 2 pv.r2 +
     paPivotSellPoints inp.lastPrice 3 pv.r3)

/-- `PriceActionStrategy._generate_signal`: buy/sell when one accumulator
beats the other by more than 3 points, with strength `min(100, score*10)`;
otherwise neutral with strength `max(buy, sell) * 5`. -/
def paGenerateSignal (inp : PAInput) : String × ℚ :=
  let buyScore := paBuyScore inp
  let sellScore := paSellScore inp
  if buyScore > sellScore + 3 then ("buy", min 100 (buyScore * 10))
  else if sellScore > buyScore + 3 then ("sell", min 100 (sellScore * 10))
  else ("neutral", max buyScore sellScore * 5)

/-! ### Signal generator (`src/trading/signal_generator.py`) -/

/-- The aggregate verdict slice `generate_signal` reads from
`analysis_results["summary"]`. -/
structure AnalysisSummary where
  signal : String
  strength : ℚ
  successProbability : ℚ
  keyTimeframes : List String
deriving DecidableEq, Repr

/-- The forecaster output consumed by `generate_signal`. -/
structure PredictionResult where
  direction : String
  confidence : ℚ
deriving DecidableEq, Repr

/-- The blend `_combine_signals` produces. -/
structure CombinedSignal where
  signal : String
  strength : ℚ
  successProbability : ℚ
  keyTimeframes : List String
deriving DecidableEq, Repr

/-- The fixed 70 % analysis weight of `_combine_signals`. -/
def analysisWeight : ℚ := 7 / 10

/-- The fixed 30 % forecast weight of `_combine_signals`. -/
def predictionWeight : ℚ := 3 / 10

/-- `SignalGenerator._combine_signals`: 0.7 analysis / 0.3 forecast
weights; buy/sell only when one score beats the other by more than 10
points, else neutral with halved strength and zero probability. -/
def combineSignals (summary : AnalysisSummary) (pred : PredictionResult) : CombinedSignal :=
  let buyScore :=
    (if summary.signal = "buy" then summary.strength * analysisWeight else 0) +
    (if pred.direction = "buy" then pred.confidence * predictionWeight else 0)
  let sellScore :=
    (if summary.signal = "sell" then summary.strength * analysisWeight else 0) +
    (if pred.direction = "sell" then pred.confidence * predictionWeight else 0)
  let prob := summary.successProbability * analysisWeight + pred.confidence * predictionWeight
  let res : String × ℚ × ℚ :=
    if buyScore > sellScore + 10 then ("buy", buyScore, prob)
    else if sellScore > buyScore + 10 then ("sell", sellScore, prob)
    else ("neutral", max buyScore sellScore / 2, 0)
  { signal := res.1, strength := res.2.1, successProbability := res.2.2,
    keyTimeframes := summary.keyTimeframes }

/-- `SignalGenerator._calculate_risk_reward`. -/
def calcRiskReward (sig : String) (entryPrice stopLoss takeProfit : ℚ) : ℚ :=
  let risk := if sig = "buy" then entryPrice - stopLoss else stopLoss - entryPrice
  let reward := if sig = "buy" then takeProfit - entryPrice else entryPrice - takeProfit
  if risk ≤ 0 then 0 else reward / risk

/-- Stop-loss / take-profit pair as computed by `_calculate_sl_tp` (a
collaborator-dependent subroutine, passed in as an oracle; `none` models
its failure path). -/
structure SLTP where
  stopLoss : ℚ
  takeProfit : ℚ
deriving DecidableEq, Repr

/-- A candidate trade signal as assembled by `generate_signal`. -/
structure CandidateSignal where
  id : String
  symbol : String
  signal : String
  entryPrice : ℚ
  stopLoss : ℚ
  takeProfit : ℚ
  riskReward : ℚ
  strength : ℚ
  successProbability : ℚ
  executed : Bool
  status : String
deriving DecidableEq, Repr

/-- `SignalGenerator.generate_signal`, with the collaborator-dependent
pieces supplied as inputs: `hasError` models an `"error"` key in the
analysis or prediction results, `lastPrice` the `_get_last_price` lookup
and `slTp` the `_calculate_sl_tp` result.  Emits `none` on any error, on a
neutral or sub-40-strength blend, and on a risk/reward below the
configured minimum (default 1.5). -/
def generateSignal (sid symbol : String) (hasError : Bool) (lastPrice : Option ℚ)
    (summary : AnalysisSummary) (pred : PredictionResult) (slTp : Option SLTP)
    (minRiskReward : ℚ) : Option CandidateSignal :=
  if hasError then none else
  match lastPrice with
  | none => none
  | some price =>
    let signalData := combineSignals summary pred
    if signalData.signal = "neutral" ∨ signalData.strength < 40 then none
    else
      match slTp with
      | none => none
      | some st =>
        let riskReward := calcRiskReward signalData.signal price st.stopLoss st.takeProfit
        if riskReward < minRiskReward then none
        else some
          { id := sid, symbol := symbol, signal := signalData.signal,
            entryPrice := price, stopLoss := st.stopLoss, takeProfit := st.takeProfit,
            riskReward := riskReward, strength := signalData.strength,
            successProbability := signalData.successProbability,
            executed := false, status := "pending" }

/-- `SignalGenerator.get_signal_by_id`: the first stored signal with the
given id. -/
def getSignalById (store : List CandidateSignal) (sid : String) : Option CandidateSignal :=
  store.find? (fun s => s.id = sid)

/-- The in-place mutation `update_signal_status` performs on the found
signal: the status field is overwritten unconditionally; `executed` is
additionally set when the new status is `"executed"` and execution
details are supplied. -/
def applyStatusUpdate (s : CandidateSignal) (status : String) (hasDetails : Bool) :
    CandidateSignal :=
  let s1 := { s with status := status }
  if status = "executed" ∧ hasDetails then { s1 with executed := true } else s1

/-- Replace the first signal with the given id. -/
def updateFirstSignal (store : List CandidateSignal) (sid status : String)
    (hasDetails : Bool) : List CandidateSignal :=
  match store with
  | [] => []
  | s :: rest =>
    if s.id = sid then applyStatusUpdate s status hasDetails :: rest
    else s :: updateFirstSignal rest sid status hasDetails

/-- `SignalGenerator.update_signal_status`: look the signal up by id;
when found, overwrite its status (returning `true`), else leave the store
unchanged (returning `false`). -/
def updateSignalStatus (store : List CandidateSignal) (sid status : String)
    (hasDetails : Bool) : List CandidateSignal × Bool :=
  match getSignalById store sid with
  | none => (store, false)
  | some _ => (updateFirstSignal store sid status hasDetails, true)

/-! ### Risk manager (`src/trading/risk_manager.py`) -/

/-- The risk-management settings consulted by `calculate_risk_params`. -/
structure RiskSettings where
  maxRiskPercent : ℚ
  maxDailyRiskPercent : ℚ
  maxWeeklyRiskPercent : ℚ
deriving DecidableEq, Repr

/-- The rolling risk counters of `RiskManager`. -/
structure RiskState where
  dailyRisk : ℚ
  weeklyRisk : ℚ
deriving DecidableEq, Repr

/-- The success-probability tiering of `calculate_risk_params`: full risk
at ≥ 80 %, 80 % of it at ≥ 70 %, 60 % at ≥ 60 %, else half. -/
def riskPercentFor (s : RiskSettings) (successProbability : ℚ) : ℚ :=
  if 80 ≤ successProbability then s.maxRiskPercent
  else if 70 ≤ successProbability then s.maxRiskPercent * (8 / 10)
  else if 60 ≤ successProbability then s.maxRiskPercent * (6 / 10)
  else s.maxRiskPercent * (5 / 10)

/-- Remaining daily risk budget in account currency. -/
def remainingDailyRisk (s : RiskSettings) (st : RiskState) (balance : ℚ) : ℚ :=
  (s.maxDailyRiskPercent - st.dailyRisk) / 100 * balance

/-- Remaining weekly risk budget in account currency. -/
def remainingWeeklyRisk (s : RiskSettings) (st : RiskState) (balance : ℚ) : ℚ :=
  (s.maxWeeklyRiskPercent - st.weeklyRisk) / 100 * balance

/-- The risk-amount computation of `calculate_risk_params`: the
probability-tiered request, capped to the lesser of the remaining daily
and weekly budgets. -/
def calcRiskAmount (s : RiskSettings) (st : RiskState) (balance successProbability : ℚ) : ℚ :=
  let availableRisk := min (remainingDailyRisk s st balance) (remainingWeeklyRisk s st balance)
  let riskAmount := balance * riskPercentFor s successProbability / 100
  if riskAmount > availableRisk then availableRisk else riskAmount

/-- `RiskManager.update_risk_history`: the committed trade's risk amount
is converted back to a percentage of the balance and added to both
rolling counters. -/
def updateRiskHistory (st : RiskState) (balance riskAmount : ℚ) : RiskState :=
  let riskPercent := if 0 < balance then riskAmount / balance * 100 else 0
  { dailyRisk := st.dailyRisk + riskPercent, weeklyRisk := st.weeklyRisk + riskPercent }

/-- One approved-and-committed trade within a single day: the risk amount
computed (and capped) by `calculate_risk_params` is committed through
`update_risk_history`. -/
def commitTrade (s : RiskSettings) (balance : ℚ) (st : RiskState)
    (successProbability : ℚ) : RiskState :=
  updateRiskHistory st balance (calcRiskAmount s st balance successProbability)

/-- A same-day sequence of approved trades, committed in order. -/
def runTrades (s : RiskSettings) (balance : ℚ) (probs : List ℚ) (st : RiskState) : RiskState :=
  probs.foldl (commitTrade s balance) st

/-- A query instant as seen by `_update_risk_tracking`: the calendar date
(as an ordinal day) and the ISO week number `_get_week_number` extracts
from it. -/
structure RiskClock where
  day : Nat
  week : Nat
deriving DecidableEq, Repr

/-- The lazily-reset tracking state: counters plus the boundaries of the
last reset. -/
structure RiskTrack where
  dailyRisk : ℚ
  weeklyRisk : ℚ
  lastResetDay : Nat
  lastResetWeek : Nat
deriving DecidableEq, Repr

/-- `RiskManager._update_risk_tracking`, invoked from
`calculate_risk_params` at query time: zero the daily counter when the
current date differs from the last reset date, and independently zero the
weekly counter when the ISO week number differs. -/
def updateRiskTracking (now : RiskClock) (st : RiskTrack) : RiskTrack :=
  let st1 :=
    if now.day ≠ st.lastResetDay then
      { st with dailyRisk := 0, lastResetDay := now.day }
    else st
  if now.week ≠ st1.lastResetWeek then
    { st1 with weeklyRisk := 0, lastResetWeek := now.week }
  else st1

/-! ### ICT detector (`src/analysis/ict_strategy.py`) -/

/-- One OHLC bar (`open` is `open_`, a Lean keyword clash; the volume
field is unused by the ICT detector and omitted). -/
structure Bar where
  open_ : ℚ
  high : ℚ
  low : ℚ
  close : ℚ
deriving DecidableEq, Repr, Inhabited

/-- `df.iloc[i]` on the bar series. -/
def barAt (df : List Bar) (i : Nat) : Bar := df.getD i default

/-- `np.mean(df['high'] - df['low'])`. -/
def avgRange (df : List Bar) : ℚ :=
  ((df.map (fun b => b.high - b.low)).sum) / df.length

/-- Swing high over the fixed 5-bar neighbourhood used throughout
`ict_strategy.py`. -/
def isSwingHigh (df : List Bar) (i : Nat) : Prop :=
  (barAt df i).high > (barAt df (i - 1)).high ∧
  (barAt df i).high > (barAt df (i - 2)).high ∧
  (barAt df i).high > (barAt df (i + 1)).high ∧
  (barAt df i).high > (barAt df (i + 2)).high

/-- Swing low over the fixed 5-bar neighbourhood. -/
def isSwingLow (df : List Bar) (i : Nat) : Prop :=
  (barAt df i).low < (barAt df (i - 1)).low ∧
  (barAt df i).low < (barAt df (i - 2)).low ∧
  (barAt df i).low < (barAt df (i + 1)).low ∧
  (barAt df i).low < (barAt df (i + 2)).low

instance (df : List Bar) (i : Nat) : Decidable (isSwingHigh df i) := by
  unfold isSwingHigh; infer_instance

instance (df : List Bar) (i : Nat) : Decidable (isSwingLow df i) := by
  unfold isSwingLow; infer_instance

/-- The swing-scan index range `range(5, len(df) - 5)`. -/
def swingScanRange (df : List Bar) : List Nat := List.range' 5 (df.length - 10)

/-- A liquidity level found by `_find_liquidity_levels`. -/
structure LiquidityLevel where
  price : ℚ
  index : Nat
  type_ : String
  equalPoints : Nat
  strength : ℚ
deriving DecidableEq, Repr

/-- Buy-side and sell-side liquidity. -/
structure LiquidityLevels where
  buySide : List LiquidityLevel
  sellSide : List LiquidityLevel
deriving DecidableEq, Repr

/-- Count of near-equal highs in the 50 bars before `i`
(`abs(high[j] - base) / base < 0.001`). -/
def equalHighsCount (df : List Bar) (i : Nat) : Nat :=
  let base := (barAt df i).high
  ((List.range i).filter (fun j =>
    decide (i - 50 ≤ j ∧ pyAbs ((barAt df j).high - base) / base < 1 / 1000))).length

/-- Count of near-equal lows in the 50 bars before `i`. -/
def equalLowsCount (df : List Bar) (i : Nat) : Nat :=
  let base := (barAt df i).low
  ((List.range i).filter (fun j =>
    decide (i - 50 ≤ j ∧ pyAbs ((barAt df j).low - base) / base < 1 / 1000))).length

/-- Python's stable `sorted(..., key=lambda x: x["strength"], reverse=True)`. -/
def sortLiqByStrength (l : List LiquidityLevel) : List LiquidityLevel :=
  List.insertionSort (fun a b => b.strength ≤ a.strength) l

/-- `ICTStrategy._find_liquidity_levels`: swing highs/lows with an
equal-touch strength bonus; empty below 30 bars; strongest five kept per
side. -/
def findLiquidityLevels (df : List Bar) : LiquidityLevels :=
  if df.length < 30 then ⟨[], []⟩
  else
    let sellSide := (swingScanRange df).filterMap (fun i =>
      if isSwingHigh df i then
        some { price := (barAt df i).high, index := i, type_ := "swing_high",
               equalPoints := equalHighsCount df i,
               strength := 1 + (equalHighsCount df i : ℚ) * (2 / 10) }
      else none)
    let buySide := (swingScanRange df).filterMap (fun i =>
      if isSwingLow df i then
        some { price := (barAt df i).low, index := i, type_ := "swing_low",
               equalPoints := equalLowsCount df i,
               strength := 1 + (equalLowsCount df i : ℚ) * (2 / 10) }
      else none)
    { buySide := (sortLiqByStrength buySide).take 5
      sellSide := (sortLiqByStrength sellSide).take 5 }

/-- An order block found by `_find_order_blocks`. -/
structure OrderBlock where
  top : ℚ
  bottom : ℚ
  index : Nat
  strength : ℚ
deriving DecidableEq, Repr

/-- Bullish and bearish order blocks. -/
structure OrderBlocks where
  bullish : List OrderBlock
  bearish : List OrderBlock
deriving DecidableEq, Repr

/-- Python's stable descending sort by strength on order blocks. -/
def sortBlocksByStrength (l : List OrderBlock) : List OrderBlock :=
  List.insertionSort (fun a b => b.strength ≤ a.strength) l

/-- `ICTStrategy._find_order_blocks`: a strong green (red) bar, of range
above twice the average, turns the first preceding red (green) bar of the
last three into a bearish (bullish) block; empty below 20 bars; strongest
three kept per side. -/
def findOrderBlocks (df : List Bar) : OrderBlocks :=
  if df.length < 20 then ⟨[], []⟩
  else
    let avg := avgRange df
    let thr := 2 * avg
    let idxs := List.range' 3 (df.length - 1 - 3)
    let bearish := idxs.filterMap (fun i =>
      let bi := barAt df i
      if bi.close > bi.open_ ∧ bi.high - bi.low > thr then
        match (List.range' (i - 3) 3).find? (fun j =>
          decide ((barAt df j).close < (barAt df j).open_ ∧ (barAt df j).low < bi.low)) with
        | some j =>
          some { top := (barAt df j).open_, bottom := (barAt df j).close, index := j,
                 strength := (bi.high - bi.low) / avg }
        | none => none
      else none)
    let bullish := idxs.filterMap (fun i =>
      let bi := barAt df i
      if ¬(bi.close > bi.open_ ∧ bi.high - bi.low > thr) ∧
          bi.close < bi.open_ ∧ bi.high - bi.low > thr then
        match (List.range' (i - 3) 3).find? (fun j =>
          decide ((barAt df j).close > (barAt df j).open_ ∧ (barAt df j).high > bi.high)) with
        | some j =>
          some { top := (barAt df j).close, bottom := (barAt df j).open_, index := j,
                 strength := (bi.high - bi.low) / avg }
        | none => none
      else none)
    { bullish := (sortBlocksByStrength bullish).take 3
      bearish := (sortBlocksByStrength bearish).take 3 }

/-- A breaker block found by `_find_breaker_blocks`. -/
structure BreakerBlock where
  top : ℚ
  bottom : ℚ
  index : Nat
  structureBreak : String
  strength : ℚ
deriving DecidableEq, Repr

/-- Bullish and bearish breaker blocks. -/
structure BreakerBlocks where
  bullish : List BreakerBlock
  bearish : List BreakerBlock
deriving DecidableEq, Repr

/-- Python's stable descending sort by strength on breaker blocks. -/
def sortBreakersByStrength (l : List BreakerBlock) : List BreakerBlock :=
  List.insertionSort (fun a b => b.strength ≤ a.strength) l

/-- The swing highs `(index, price)` collected by `_find_breaker_blocks`. -/
def swingHighPoints (df : List Bar) : List (Nat × ℚ) :=
  (swingScanRange df).filterMap (fun i =>
    if isSwingHigh df i then some (i, (barAt df i).high) else none)

/-- The swing lows `(index, price)` collected by `_find_breaker_blocks`. -/
def swingLowPoints (df : List Bar) : List (Nat × ℚ) :=
  (swingScanRange df).filterMap (fun i =>
    if isSwingLow df i then some (i, (barAt df i).low) else none)

/-- `ICTStrategy._find_breaker_blocks`: a lower high (higher low) in the
swing sequence is a structure break; the first green (red) bar in the 20
bars after it becomes a bullish (bearish) breaker; empty below 50 bars. -/
def findBreakerBlocks (df : List Bar) : BreakerBlocks :=
  if df.length < 50 then ⟨[], []⟩
  else
    let highs := swingHighPoints df
    let lows := swingLowPoints df
    let bullish := (highs.zip highs.tail).filterMap (fun pr =>
      if pr.2.2 < pr.1.2 then
        let start := pr.2.1
        let stop := min (start + 20) (df.length - 1)
        match (List.range' start (stop - start)).find? (fun j =>
          decide ((barAt df j).close > (barAt df j).open_)) with
        | some j =>
          some { top := (barAt df j).close, bottom := (barAt df j).open_, index := j,
                 structureBreak := "lower_high",
                 strength := 1 + (pr.1.2 - pr.2.2) / pr.1.2 }
        | none => none
      else none)
    let bearish := (lows.zip lows.tail).filterMap (fun pr =>
      if pr.2.2 > pr.1.2 then
        let start := pr.2.1
        let stop := min (start + 20) (df.length - 1)
        match (List.range' start (stop - start)).find? (fun j =>
          decide ((barAt df j).close < (barAt df j).open_)) with
        | some j =>
          some { top := (barAt df j).open_, bottom := (barAt df j).close, index := j,
                 structureBreak := "higher_low",
                 strength := 1 + (pr.2.2 - pr.1.2) / pr.1.2 }
        | none => none
      else none)
    { bullish := sortBreakersByStrength bullish
      bearish := sortBreakersByStrength bearish }

/-- A fair-value gap found by `_find_fair_value_gaps`. -/
structure FairValueGap where
  top : ℚ
  bottom : ℚ
  index : Nat
  size : ℚ
  strength : ℚ
deriving DecidableEq, Repr

/-- Bullish and bearish fair-value gaps. -/
structure FairValueGaps where
  bullish : List FairValueGap
  bearish : List FairValueGap
deriving DecidableEq, Repr

/-- Python's stable descending sort by strength on fair-value gaps. -/
def sortGapsByStrength (l : List FairValueGap) : List FairValueGap :=
  List.insertionSort (fun a b => b.strength ≤ a.strength) l

/-- `ICTStrategy._find_fair_value_gaps`: a 3-bar window whose outer bars
do not overlap by more than 0.3× the average range; empty below 10 bars;
strongest three kept per side. -/
def findFairValueGaps (df : List Bar) : FairValueGaps :=
  if df.length < 10 then ⟨[], []⟩
  else
    let avg := avgRange df
    let minGap := (3 / 10) * avg
    let idxs := List.range' 1 (df.length - 1 - 1)
    let bullish := idxs.filterMap (fun i =>
      if (barAt df (i - 1)).high < (barAt df (i + 1)).low then
        let gapSize := (barAt df (i + 1)).low - (barAt df (i - 1)).high
        if gapSize > minGap then
          some { top := (barAt df (i + 1)).low, bottom := (barAt df (i - 1)).high,
                 index := i, size := gapSize, strength := gapSize / avg }
        else none
      else none)
    let bearish := idxs.filterMap (fun i =>
      if (barAt df (i - 1)).low > (barAt df (i + 1)).high then
        let gapSize := (barAt df (i - 1)).low - (barAt df (i + 1)).high
        if gapSize > minGap then
          some { top := (barAt df (i - 1)).low, bottom := (barAt df (i + 1)).high,
                 index := i, size := gapSize, strength := gapSize / avg }
        else none
      else none)
    { bullish := (sortGapsByStrength bullish).take 3
      bearish := (sortGapsByStrength bearish).take 3 }

/-- Minimum of a rational list with a default for the empty case
(Python's `min` is only reached on non-empty lists). -/
def listMinD (l : List ℚ) (d : ℚ) : ℚ :=
  match l with
  | [] => d
  | x :: xs => xs.foldl min x

/-- Maximum of a rational list with a default for the empty case. -/
def listMaxD (l : List ℚ) (d : ℚ) : ℚ :=
  match l with
  | [] => d
  | x :: xs => xs.foldl max x

/-- The last close (`df['close'].iloc[-1]`). -/
def lastClose (df : List Bar) : ℚ := (df.getLastD default).close

/-- `ICTStrategy._identify_ict_patterns`, deduplicated (`list(set(...))`;
the unspecified Python set ordering is modelled by first-occurrence
order). -/
def identifyIctPatterns (df : List Bar) (liq : LiquidityLevels)
    (ob : OrderBlocks) (fvg : FairValueGaps) : List String :=
  let lastPrice := lastClose df
  let avg := avgRange df
  let sweep : List String :=
    if liq.buySide ≠ [] ∧ 100 < df.length then
      let recent := liq.buySide.filter (fun lv =>
        decide ((df.length : ℤ) - 60 < (lv.index : ℤ)))
      if 2 ≤ recent.length then
        let ranges := (recent.zip recent.tail).map (fun pr => pyAbs (pr.1.price - pr.2.price))
        if listMinD ranges 0 < (5 / 10) * avg then ["Liquidity Sweep Pattern (Buy Side)"]
        else []
      else []
    else []
  let ipda : List String :=
    if 2 ≤ ob.bullish.length then
      let tops := ob.bullish.map (fun b => b.top)
      let bottoms := ob.bullish.map (fun b => b.bottom)
      if listMaxD tops 0 - listMinD bottoms 0 < 2 * avg then
        ["Internal Price Delivery Area (Bullish)"]
      else []
    else []
  let bullGapBlock := fvg.bullish.filterMap (fun gap =>
    if ob.bullish.any (fun block =>
        decide (gap.bottom ≤ block.top ∧ gap.top ≥ block.bottom)) then
      some "Bullish Order Block with Fair Value Gap"
    else none)
  let bearGapBlock := fvg.bearish.filterMap (fun gap =>
    if ob.bearish.any (fun block =>
        decide (gap.bottom ≤ block.top ∧ gap.top ≥ block.bottom)) then
      some "Bearish Order Block with Fair Value Gap"
    else none)
  let bullLiqBlock := liq.buySide.filterMap (fun level =>
    if ob.bullish.any (fun block =>
        decide (pyAbs (level.price - block.bottom) / level.price < 2 / 1000)) then
      some "Bullish Order Block at Buy Side Liquidity"
    else none)
  let bearLiqBlock := liq.sellSide.filterMap (fun level =>
    if ob.bearish.any (fun block =>
        decide (pyAbs (level.price - block.top) / level.price < 2 / 1000)) then
      some "Bearish Order Block at Sell Side Liquidity"
    else none)
  let approachBull : List String :=
    if fvg.bullish.any (fun gap =>
        decide (lastPrice < gap.bottom ∧ (gap.bottom - lastPrice) / lastPrice < 5 / 1000)) then
      ["Price Approaching Bullish Fair Value Gap"]
    else []
  let approachBear : List String :=
    if fvg.bearish.any (fun gap =>
        decide (lastPrice > gap.top ∧ (lastPrice - gap.top) / lastPrice < 5 / 1000)) then
      ["Price Approaching Bearish Fair Value Gap"]
    else []
  (sweep ++ ipda ++ bullGapBlock ++ bearGapBlock ++ bullLiqBlock ++ bearLiqBlock ++
    approachBull ++ approachBear).eraseDups

/-- Support/resistance pair. -/
structure SupportResistance where
  support : List ℚ
  resistance : List ℚ
deriving DecidableEq, Repr

/-- `ICTStrategy._find_support_resistance`: liquidity below/above the
last price plus the spans of order blocks below/above it, merged by the
shared level merger. -/
def findSupportResistanceIct (df : List Bar) (liq : LiquidityLevels)
    (ob : OrderBlocks) : SupportResistance :=
  let lastPrice := lastClose df
  let support :=
    (liq.buySide.filterMap (fun lv => if lv.price < lastPrice then some lv.price else none)) ++
    (ob.bullish.flatMap (fun b => if b.top < lastPrice then [b.top, b.bottom] else []))
  let resistance :=
    (liq.sellSide.filterMap (fun lv => if lv.price > lastPrice then some lv.price else none)) ++
    (ob.bearish.flatMap (fun b => if b.bottom > lastPrice then [b.top, b.bottom] else []))
  { support := engineMergeLevels support
    resistance := engineMergeLevels resistance }

/-- Buy points contributed by one buy-side liquidity level in
`ICTStrategy._generate_signal`. -/
def ictLiqBuyPoints (lastPrice : ℚ) (level : LiquidityLevel) : ℚ :=
  let diffPct := (lastPrice - level.price) / lastPrice
  if -(5 / 1000) < diffPct ∧ diffPct < 2 / 1000 then 2 * level.strength
  else if 2 / 1000 ≤ diffPct ∧ diffPct < 1 / 100 then 1 * level.strength
  else 0

/-- Sell points contributed by one sell-side liquidity level. -/
def ictLiqSellPoints (lastPrice : ℚ) (level : LiquidityLevel) : ℚ :=
  let diffPct := (level.price - lastPrice) / lastPrice
  if -(5 / 1000) < diffPct ∧ diffPct < 2 / 1000 then 2 * level.strength
  else if 2 / 1000 ≤ diffPct ∧ diffPct < 1 / 100 then 1 * level.strength
  else 0

/-- Buy points contributed by one bullish order block. -/
def ictBlockBuyPoints (lastPrice : ℚ) (block : OrderBlock) : ℚ :=
  if block.bottom ≤ lastPrice ∧ lastPrice ≤ block.top then 3 * block.strength
  else if 0 < (lastPrice - block.top) / lastPrice ∧
      (lastPrice - block.top) / lastPrice < 5 / 1000 then (3 / 2) * block.strength
  else 0

/-- Sell points contributed by one bearish order block. -/
def ictBlockSellPoints (lastPrice : ℚ) (block : OrderBlock) : ℚ :=
  if block.bottom ≤ lastPrice ∧ lastPrice ≤ block.top then 3 * block.strength
  else if 0 < (block.bottom - lastPrice) / lastPrice ∧
      (block.bottom - lastPrice) / lastPrice < 5 / 1000 then (3 / 2) * block.strength
  else 0

/-- Buy points contributed by one bullish fair-value gap. -/
def ictGapBuyPoints (lastPrice : ℚ) (gap : FairValueGap) : ℚ :=
  if lastPrice < gap.bottom ∧ (gap.bottom - lastPrice) / lastPrice < 5 / 1000 then
    2 * gap.strength
  else if gap.bottom ≤ lastPrice ∧ lastPrice ≤ gap.top then 1 * gap.strength
  else 0

/-- Sell points contributed by one bearish fair-value gap. -/
def ictGapSellPoints (lastPrice : ℚ) (gap : FairValueGap) : ℚ :=
  if lastPrice > gap.top ∧ (lastPrice - gap.top) / lastPrice < 5 / 1000 then
    2 * gap.strength
  else if gap.bottom ≤ lastPrice ∧ lastPrice ≤ gap.top then 1 * gap.strength
  else 0

/-- Buy points for a named ICT pattern (+2 when it mentions Bullish). -/
def ictPatternBuyPoints (p : String) : ℚ :=
  if strContains p "Bullish" then 2 else 0

/-- Sell points for a named ICT pattern (+2 when it mentions Bearish and
the Bullish branch did not fire). -/
def ictPatternSellPoints (p : String) : ℚ :=
  if strContains p "Bullish" then 0
  else if strContains p "Bearish" then 2 else 0

/-- `ICTStrategy._generate_signal`: structural-proximity points toward a
buy or sell accumulator; buy/sell needs a margin of more than 2 points,
with strength `min(100, score*10)`; else neutral with zero strength. -/
def ictGenerateSignal (df : List Bar) (liq : LiquidityLevels) (ob : OrderBlocks)
    (fvg : FairValueGaps) (patterns : List String) : String × ℚ :=
  let lastPrice := lastClose df
  let buyScore :=
    (liq.buySide.map (ictLiqBuyPoints lastPrice)).sum +
    (ob.bullish.map (ictBlockBuyPoints lastPrice)).sum +
    (fvg.bullish.map (ictGapBuyPoints lastPrice)).sum +
    (patterns.map ictPatternBuyPoints).sum
  let sellScore :=
    (liq.sellSide.map (ictLiqSellPoints lastPrice)).sum +
    (ob.bearish.map (ictBlockSellPoints lastPrice)).sum +
    (fvg.bearish.map (ictGapSellPoints lastPrice)).sum +
    (patterns.map ictPatternSellPoints).sum
  if buyScore > sellScore + 2 then ("buy", min 100 (buyScore * 10))
  else if sellScore > buyScore + 2 then ("sell", min 100 (sellScore * 10))
  else ("neutral", 0)

/-- The full result dictionary of `ICTStrategy.analyze` (the symbol,
timeframe and timestamp bookkeeping fields are omitted). -/
structure ICTResult where
  liquidityLevels : LiquidityLevels
  orderBlocks : OrderBlocks
  breakerBlocks : BreakerBlocks
  fairValueGaps : FairValueGaps
  patterns : List String
  supportLevels : List ℚ
  resistanceLevels : List ℚ
  signal : String
  strength : ℚ
deriving DecidableEq, Repr

/-- `ICTStrategy.analyze`: an empty bar series yields the
`{"error": "Veri bulunamadı"}` dictionary; otherwise the sub-features are
computed in order and combined into a signal. -/
def ictAnalyze (df : List Bar) : Except String ICTResult :=
  if df = [] then .error "Veri bulunamadı"
  else
    let liq := findLiquidityLevels df
    let ob := findOrderBlocks df
    let breakers := findBreakerBlocks df
    let fvg := findFairValueGaps df
    let patterns := identifyIctPatterns df liq ob fvg
    let sr := findSupportResistanceIct df liq ob
    let sig := ictGenerateSignal df liq ob fvg patterns
    .ok { liquidityLevels := liq, orderBlocks := ob, breakerBlocks := breakers,
          fairValueGaps := fvg, patterns := patterns,
          supportLevels := sr.support, resistanceLevels := sr.resistance,
          signal := sig.1, strength := sig.2 }

/-! ## Claim theorems -/

/-- The capped risk amount never exceeds the remaining daily budget. -/
theorem calcRiskAmount_le_remaining (s : RiskSettings) (st : RiskState)
    (balance prob : ℚ) :
    calcRiskAmount s st balance prob ≤
      min (remainingDailyRisk s st balance) (remainingWeeklyRisk s st balance) := by
  unfold calcRiskAmount
  dsimp only
  split_ifs with h
  · exact le_refl _
  · exact le_of_not_lt h

/-- One committed trade leaves the daily counter at or below the daily
ceiling (for a positive balance), whatever the prior state. -/
theorem commitTrade_daily_le (s : RiskSettings) (balance : ℚ) (st : RiskState)
    (prob : ℚ) (hb : 0 < balance) :
    (commitTrade s balance st prob).dailyRisk ≤ s.maxDailyRiskPercent := by
  have hra : calcRiskAmount s st balance prob ≤ remainingDailyRisk s st balance :=
    le_trans (calcRiskAmount_le_remaining s st balance prob) (min_le_left _ _)
  have key : calcRiskAmount s st balance prob / balance * 100 ≤
      s.maxDailyRiskPercent - st.dailyRisk := by
    unfold remainingDailyRisk at hra
    rw [div_mul_eq_mul_div, div_le_iff₀ hb]
    nlinarith [hra]
  show st.dailyRisk +
    (if 0 < balance then calcRiskAmount s st balance prob / balance * 100 else 0) ≤
    s.maxDailyRiskPercent
  rw [if_pos hb]
  linarith

/-- C1: For any same-day sequence of trades approved by
`can_open_position` and committed through `update_risk_history`, the
`daily_risk` counter never exceeds `max_daily_risk_percent`, because
`calculate_risk_params` first caps each trade's risk amount to the lesser
of the remaining daily and weekly budgets.  (The balance is the one both
the approval and the commit read; the counter starts within the budget —
initially it is `0`.) -/
theorem daily_risk_never_exceeds_budget (s : RiskSettings) (balance : ℚ)
    (probs : List ℚ) (st : RiskState) (hb : 0 < balance)
    (hd : st.dailyRisk ≤ s.maxDailyRiskPercent) :
    (runTrades s balance probs st).dailyRisk ≤ s.maxDailyRiskPercent ∧
    ∀ st' prob, calcRiskAmount s st' balance prob ≤
      min (remainingDailyRisk s st' balance) (remainingWeeklyRisk s st' balance) := by
  refine ⟨?_, fun st' prob => calcRiskAmount_le_remaining s st' balance prob⟩
  induction probs generalizing st with
  | nil => exact hd
  | cons p ps ih =>
    exact ih (commitTrade s balance st p) (commitTrade_daily_le s balance st p hb)

/-- Witness for C1: balance 10000, ceilings 2 %/5 %/10 %, four fully
entitled trades (success probability 85) commit 2, 2, 1 and 0 % and end
exactly at the 5 % daily ceiling. -/
theorem daily_risk_never_exceeds_budget_witness :
    (0 : ℚ) < 10000 ∧ ((0 : ℚ) ≤ 5) ∧
    (runTrades ⟨2, 5, 10⟩ 10000 [85, 85, 85, 85] ⟨0, 0⟩).dailyRisk ≤ 5 ∧
    (runTrades ⟨2, 5, 10⟩ 10000 [85, 85, 85, 85] ⟨0, 0⟩).dailyRisk = 5 :=
  ⟨by norm_num, by norm_num,
   (daily_risk_never_exceeds_budget ⟨2, 5, 10⟩ 10000 [85, 85, 85, 85] ⟨0, 0⟩
     (by norm_num) (by norm_num)).1,
   by norm_num [runTrades, commitTrade, updateRiskHistory, calcRiskAmount,
     remainingDailyRisk, remainingWeeklyRisk, riskPercentFor]⟩

/-- C9: A risk query after a calendar-day change zeroes the daily counter
and leaves the weekly counter untouched; the weekly counter is zeroed
exactly when the ISO week number of the query differs from the one of the
last weekly reset.  The reset happens inside `_update_risk_tracking`,
which `calculate_risk_params` invokes at query time (no timer). -/
theorem riskTracking_lazy_reset (now : RiskClock) (st : RiskTrack)
    (hday : now.day ≠ st.lastResetDay) :
    (updateRiskTracking now st).dailyRisk = 0 ∧
    (updateRiskTracking now st).lastResetDay = now.day ∧
    (updateRiskTracking now st).weeklyRisk =
      (if now.week = st.lastResetWeek then st.weeklyRisk else 0) := by
  unfold updateRiskTracking
  rw [if_pos hday]
  by_cases hweek : now.week = st.lastResetWeek
  · simp [hweek]
  · simp [hweek]

/-- Witness for C9: crossing from day 737790 to 737791 inside ISO week 2
resets the daily counter from 3 to 0 and keeps the weekly counter at 7. -/
theorem riskTracking_lazy_reset_witness :
    (737791 ≠ 737790) ∧
    (updateRiskTracking ⟨737791, 2⟩ ⟨3, 7, 737790, 2⟩).dailyRisk = 0 ∧
    (updateRiskTracking ⟨737791, 2⟩ ⟨3, 7, 737790, 2⟩).weeklyRisk = 7 := by
  have h := riskTracking_lazy_reset ⟨737791, 2⟩ ⟨3, 7, 737790, 2⟩ (by decide)
  exact ⟨by decide, h.1, by rw [h.2.2]; norm_num⟩

/-- C5: For positive price levels and any relative tolerance, the level
merger's output is ascending, adjacent output levels are separated by
more than the tolerance (relative to the lower level), and merging is
idempotent. -/
theorem mergeCloseLevels_spec (levels : List ℚ) (t : ℚ)
    (hpos : ∀ l ∈ levels, 0 < l) :
    (mergeCloseLevels levels t).Sorted (· ≤ ·) ∧
    (mergeCloseLevels levels t).Chain' (gapGT t) ∧
    mergeCloseLevels (mergeCloseLevels levels t) t = mergeCloseLevels levels t :=
  ⟨(mergeCloseLevels_sorted_gap levels t hpos).1,
   (mergeCloseLevels_sorted_gap levels t hpos).2,
   mergeCloseLevels_idem levels t hpos⟩

unseal Rat.add Rat.sub Rat.mul Rat.inv Rat.ofScientific in
/-- Witness for C5, the spec's own example: levels
`[1.1000, 1.1003, 1.1050]` at tolerance 0.05 % merge to
`[1.10015, 1.1050]`, and the three merger properties hold there. -/
theorem mergeCloseLevels_spec_witness :
    (∀ l ∈ [(11000 : ℚ) / 10000, 11003 / 10000, 11050 / 10000], 0 < l) ∧
    (mergeCloseLevels [(11000 : ℚ) / 10000, 11003 / 10000, 11050 / 10000] (5 / 10000)).Sorted (· ≤ ·) ∧
    mergeCloseLevels [(11000 : ℚ) / 10000, 11003 / 10000, 11050 / 10000] (5 / 10000) =
      [110015 / 100000, 11050 / 10000] :=
  ⟨by decide, (mergeCloseLevels_spec _ _ (by decide)).1, by decide⟩

/-- Scaling a unit-capped minimum by 1/10. -/
theorem min_scale_tenth (x : ℚ) (_hx : 0 ≤ x) :
    1 / 10 * min x 1 = min (1 / 10 * x) (1 / 10) := by
  rcases le_total x 1 with h | h
  · rw [min_eq_left h, min_eq_left (by linarith)]
  · rw [min_eq_right h, min_eq_right (by nlinarith)]
    norm_num

/-- C4 (amended): the sentiment term `_create_summary` adds to the
matching side equals `0.1 * min(|impact|, 1.0)` — that is,
`min(0.1 * |impact|, 0.1)` — so it is capped at magnitude 0.1, not 1.0;
positive impact feeds the buy weight, negative impact the sell weight,
zero impact changes nothing. -/
theorem applySentiment_spec (impact buyWeight sellWeight : ℚ) :
    (0 < impact → applySentiment impact buyWeight sellWeight =
      (buyWeight + min (1 / 10 * pyAbs impact) (1 / 10), sellWeight)) ∧
    (impact < 0 → applySentiment impact buyWeight sellWeight =
      (buyWeight, sellWeight + min (1 / 10 * pyAbs impact) (1 / 10))) ∧
    (impact = 0 → applySentiment impact buyWeight sellWeight = (buyWeight, sellWeight)) ∧
    min (1 / 10 * pyAbs impact) (1 / 10) ≤ 1 / 10 := by
  refine ⟨?_, ?_, ?_, min_le_right _ _⟩
  · intro h
    unfold applySentiment
    rw [if_pos h, pyAbs_of_nonneg h.le, min_scale_tenth impact h.le]
  · intro h
    unfold applySentiment
    rw [if_neg (by linarith : ¬ 0 < impact), if_pos h]
    have habs : pyAbs impact = -impact := by
      unfold pyAbs
      rw [if_pos h]
    rw [habs, min_scale_tenth (-impact) (by linarith)]
  · intro h
    unfold applySentiment
    rw [if_neg (by simp [h]), if_neg (by simp [h])]

unseal Rat.add Rat.sub Rat.mul Rat.inv Rat.ofScientific in
/-- Counterexample to C4 as stated: at impact 2 the code adds 0.1 to the
buy weight, while `min(0.1 × |impact|, 1.0)` would be 0.2. -/
theorem applySentiment_counterexample :
    (applySentiment 2 0 0).1 = 1 / 10 ∧
    min (1 / 10 * pyAbs 2) 1 = 2 / 10 ∧ ¬((1 : ℚ) / 10 = 2 / 10) := by
  refine ⟨?_, ?_, by norm_num⟩ <;> decide

/-- Witness for C4 (amended): at impact 2 the buy weight gains exactly
`min(0.1 * |2|, 0.1) = 0.1` and the sell weight is untouched. -/
theorem applySentiment_spec_witness :
    (0 : ℚ) < 2 ∧ applySentiment 2 0 0 = (0 + min (1 / 10 * pyAbs 2) (1 / 10), 0) :=
  ⟨by norm_num, (applySentiment_spec 2 0 0).1 (by norm_num)⟩

/-- Below 30 bars the liquidity scan degrades to empty. -/
theorem findLiquidityLevels_below_min (df : List Bar) (h : df.length < 30) :
    findLiquidityLevels df = ⟨[], []⟩ := by
  unfold findLiquidityLevels
  rw [if_pos h]

/-- Below 20 bars the order-block scan degrades to empty. -/
theorem findOrderBlocks_below_min (df : List Bar) (h : df.length < 20) :
    findOrderBlocks df = ⟨[], []⟩ := by
  unfold findOrderBlocks
  rw [if_pos h]

/-- Below 50 bars the breaker-block scan degrades to empty. -/
theorem findBreakerBlocks_below_min (df : List Bar) (h : df.length < 50) :
    findBreakerBlocks df = ⟨[], []⟩ := by
  unfold findBreakerBlocks
  rw [if_pos h]

/-- Below 10 bars the fair-value-gap scan degrades to empty. -/
theorem findFairValueGaps_below_min (df : List Bar) (h : df.length < 10) :
    findFairValueGaps df = ⟨[], []⟩ := by
  unfold findFairValueGaps
  rw [if_pos h]

/-- With no structures found, no ICT pattern is reported. -/
theorem identifyIctPatterns_empty (df : List Bar) :
    identifyIctPatterns df ⟨[], []⟩ ⟨[], []⟩ ⟨[], []⟩ = [] := by
  unfold identifyIctPatterns
  simp only [ne_eq, not_true_eq_false, false_and, if_false, List.filterMap_nil,
    List.length_nil, List.append_nil, List.nil_append]
  norm_num [List.eraseDups, List.eraseDups.loop]

/-- With no structures found, no support or resistance is reported. -/
theorem findSupportResistanceIct_empty (df : List Bar) :
    findSupportResistanceIct df ⟨[], []⟩ ⟨[], []⟩ = ⟨[], []⟩ := by
  unfold findSupportResistanceIct engineMergeLevels
  simp

/-- With no structures and no patterns, the ICT signal is neutral with
zero strength. -/
theorem ictGenerateSignal_empty (df : List Bar) :
    ictGenerateSignal df ⟨[], []⟩ ⟨[], []⟩ ⟨[], []⟩ [] = ("neutral", 0) := by
  unfold ictGenerateSignal
  norm_num

/-- C10 (amended): for every non-empty bar series shorter than 10 bars —
below every sub-feature's minimum — `ICTStrategy.analyze` returns empty
structure lists and a neutral signal of zero strength (total function, no
exception); each guarded sub-feature independently degrades to empty
below its own minimum (10 bars for fair-value gaps, 20 for order blocks,
30 for liquidity, 50 for breakers).  The empty series instead returns the
`error` dictionary, and a series below one sub-feature's minimum but
above another's can still produce structures and a non-neutral signal
(see the counterexample). -/
theorem ictAnalyze_degrades_below_min (df : List Bar) (hne : df ≠ [])
    (hlen : df.length < 10) :
    ictAnalyze df = .ok
      { liquidityLevels := ⟨[], []⟩, orderBlocks := ⟨[], []⟩, breakerBlocks := ⟨[], []⟩,
        fairValueGaps := ⟨[], []⟩, patterns := [], supportLevels := [],
        resistanceLevels := [], signal := "neutral", strength := 0 } ∧
    (∀ d : List Bar, d.length < 30 → findLiquidityLevels d = ⟨[], []⟩) ∧
    (∀ d : List Bar, d.length < 20 → findOrderBlocks d = ⟨[], []⟩) ∧
    (∀ d : List Bar, d.length < 50 → findBreakerBlocks d = ⟨[], []⟩) ∧
    (∀ d : List Bar, d.length < 10 → findFairValueGaps d = ⟨[], []⟩) := by
  refine ⟨?_, fun d hd => findLiquidityLevels_below_min d hd,
    fun d hd => findOrderBlocks_below_min d hd,
    fun d hd => findBreakerBlocks_below_min d hd,
    fun d hd => findFairValueGaps_below_min d hd⟩
  unfold ictAnalyze
  rw [if_neg hne]
  simp only [findLiquidityLevels_below_min df (by omega),
    findOrderBlocks_below_min df (by omega), findBreakerBlocks_below_min df (by omega),
    findFairValueGaps_below_min df (by omega), identifyIctPatterns_empty,
    findSupportResistanceIct_empty, ictGenerateSignal_empty]

/-- The filler bar of the C10 counterexample series: a doji of range 1. -/
def defaultBar : Bar := { open_ := 10, high := 11, low := 10, close := 10 }

/-- A red bar undercutting the following strong move. -/
def redBar : Bar := { open_ := 10, high := 11, low := 8, close := 9 }

/-- A strong green bar of range 12, far above twice the average range. -/
def strongBar : Bar := { open_ := 10, high := 21, low := 9, close := 20 }

/-- A 25-bar series: below the liquidity minimum of 30 bars but above the
order-block minimum of 20. -/
def c10Bars : List Bar :=
  List.replicate 4 defaultBar ++ [redBar, strongBar] ++ List.replicate 19 defaultBar

/-- The observable outcome of an ICT analysis: number of bearish order
blocks, signal and strength (errors collapse to a marker). -/
def ictOutcome (e : Except String ICTResult) : Nat × String × ℚ :=
  match e with
  | .error _ => (0, "error", 0)
  | .ok r => (r.orderBlocks.bearish.length, r.signal, r.strength)

set_option maxRecDepth 100000 in
unseal Rat.add Rat.sub Rat.mul Rat.inv Rat.ofScientific in
/-- Counterexample to C10 as stated: the 25-bar series `c10Bars` is below
the liquidity sub-feature's 30-bar minimum, yet `analyze` returns a
non-empty bearish order-block list and a sell signal of strength 100 —
not empty structure lists with a neutral zero-strength signal.  (The
empty series, also below every minimum, returns the error dictionary
instead of a neutral result.) -/
theorem ictAnalyze_counterexample :
    c10Bars.length = 25 ∧ c10Bars.length < 30 ∧
    ictOutcome (ictAnalyze c10Bars) = (1, "sell", 100) ∧
    ictAnalyze [] = .error "Veri bulunamadı" := by
  refine ⟨by decide, by decide, by decide, by rfl⟩

/-- Witness for C10 (amended): a five-bar series degrades to the
all-empty neutral result. -/
theorem ictAnalyze_degrades_below_min_witness :
    (List.replicate 5 defaultBar ≠ []) ∧ (List.replicate 5 defaultBar).length < 10 ∧
    ictAnalyze (List.replicate 5 defaultBar) = .ok
      { liquidityLevels := ⟨[], []⟩, orderBlocks := ⟨[], []⟩, breakerBlocks := ⟨[], []⟩,
        fairValueGaps := ⟨[], []⟩, patterns := [], supportLevels := [],
        resistanceLevels := [], signal := "neutral", strength := 0 } :=
  ⟨by decide, by decide,
   (ictAnalyze_degrades_below_min (List.replicate 5 defaultBar) (by decide) (by decide)).1⟩

/-- Per-pattern buy points are non-negative. -/
theorem paPatternBuyPoints_nonneg (p : String) : 0 ≤ paPatternBuyPoints p := by
  unfold paPatternBuyPoints
  split_ifs <;> norm_num

/-- Per-pattern sell points are non-negative. -/
theorem paPatternSellPoints_nonneg (p : String) : 0 ≤ paPatternSellPoints p := by
  unfold paPatternSellPoints
  split_ifs <;> norm_num

/-- Pivot buy points are non-negative for the pivot ranks 1–3 in use. -/
theorem paPivotBuyPoints_nonneg (lastPrice : ℚ) (k : Nat) (hk : k ≤ 4) (lv : Option ℚ) :
    0 ≤ paPivotBuyPoints lastPrice k lv := by
  unfold paPivotBuyPoints
  cases lv with
  | none => exact le_refl 0
  | some l =>
    dsimp only
    split_ifs
    · have hk' : (k : ℚ) ≤ 4 := by exact_mod_cast hk
      nlinarith
    · exact le_refl 0

/-- Pivot sell points are non-negative for the pivot ranks 1–3 in use. -/
theorem paPivotSellPoints_nonneg (lastPrice : ℚ) (k : Nat) (hk : k ≤ 4) (lv : Option ℚ) :
    0 ≤ paPivotSellPoints lastPrice k lv := by
  unfold paPivotSellPoints
  cases lv with
  | none => exact le_refl 0
  | some l =>
    dsimp only
    split_ifs
    · have hk' : (k : ℚ) ≤ 4 := by exact_mod_cast hk
      nlinarith
    · exact le_refl 0

/-- The buy accumulator is non-negative on non-negative inputs. -/
theorem paBuyScore_nonneg (inp : PAInput) (ht : 0 ≤ inp.trendStrength)
    (hc : ∀ p ∈ inp.candlePatterns, 0 ≤ p.2)
    (hm : ∀ p ∈ inp.momentumSignals, 0 ≤ p.2) :
    0 ≤ paBuyScore inp := by
  unfold paBuyScore
  have h1 : 0 ≤ if inp.trend = "bullish" then inp.trendStrength / 20 else 0 := by
    split_ifs
    · positivity
    · exact le_refl 0
  have h2 : 0 ≤ (inp.candlePatterns.map
      (fun p => if p.1 = "bullish" then p.2 / 20 else 0)).sum := by
    apply List.sum_nonneg
    intro x hx
    obtain ⟨p, hp, rfl⟩ := List.mem_map.mp hx
    split_ifs
    · have := hc p hp
      positivity
    · exact le_refl 0
  have h3 : 0 ≤ (inp.momentumSignals.map
      (fun p => if p.1 = "buy" then p.2 / 20 else 0)).sum := by
    apply List.sum_nonneg
    intro x hx
    obtain ⟨p, hp, rfl⟩ := List.mem_map.mp hx
    split_ifs
    · have := hm p hp
      positivity
    · exact le_refl 0
  have h4 : 0 ≤ (inp.patterns.map paPatternBuyPoints).sum := by
    apply List.sum_nonneg
    intro x hx
    obtain ⟨p, _, rfl⟩ := List.mem_map.mp hx
    exact paPatternBuyPoints_nonneg p
  have h5 : 0 ≤ match inp.pivots with
    | none => (0 : ℚ)
    | some pv =>
      paPivotBuyPoints inp.lastPrice 1 pv.s1 + paPivotBuyPoints inp.lastPrice 2 pv.s2 +
      paPivotBuyPoints inp.lastPrice 3 pv.s3 := by
    cases inp.pivots with
    | none => exact le_refl 0
    | some pv =>
      have a1 := paPivotBuyPoints_nonneg inp.lastPrice 1 (by norm_num) pv.s1
      have a2 := paPivotBuyPoints_nonneg inp.lastPrice 2 (by norm_num) pv.s2
      have a3 := paPivotBuyPoints_nonneg inp.lastPrice 3 (by norm_num) pv.s3
      dsimp only
      linarith
  linarith

/-- The sell accumulator is non-negative on non-negative inputs. -/
theorem paSellScore_nonneg (inp : PAInput) (ht : 0 ≤ inp.trendStrength)
    (hc : ∀ p ∈ inp.candlePatterns, 0 ≤ p.2)
    (hm : ∀ p ∈ inp.momentumSignals, 0 ≤ p.2) :
    0 ≤ paSellScore inp := by
  unfold paSellScore
  have h1 : 0 ≤ if inp.trend = "bearish" then inp.trendStrength / 20 else 0 := by
    split_ifs
    · positivity
    · exact le_refl 0
  have h2 : 0 ≤ (inp.candlePatterns.map
      (fun p => if p.1 = "bearish" then p.2 / 20 else 0)).sum := by
    apply List.sum_nonneg
    intro x hx
    obtain ⟨p, hp, rfl⟩ := List.mem_map.mp hx
    split_ifs
    · have := hc p hp
      positivity
    · exact le_refl 0
  have h3 : 0 ≤ (inp.momentumSignals.map
      (fun p => if p.1 = "sell" then p.2 / 20 else 0)).sum := by
    apply List.sum_nonneg
    intro x hx
    obtain ⟨p, hp, rfl⟩ := List.mem_map.mp hx
    split_ifs
    · have := hm p hp
      positivity
    · exact le_refl 0
  have h4 : 0 ≤ (inp.patterns.map paPatternSellPoints).sum := by
    apply List.sum_nonneg
    intro x hx
    obtain ⟨p, _, rfl⟩ := List.mem_map.mp hx
    exact paPatternSellPoints_nonneg p
  have h5 : 0 ≤ match inp.pivots with
    | none => (0 : ℚ)
    | some pv =>
      paPivotSellPoints inp.lastPrice 1 pv.r1 + paPivotSellPoints inp.lastPrice 2 pv.r2 +
      paPivotSellPoints inp.lastPrice 3 pv.r3 := by
    cases inp.pivots with
    | none => exact le_refl 0
    | some pv =>
      have a1 := paPivotSellPoints_nonneg inp.lastPrice 1 (by norm_num) pv.r1
      have a2 := paPivotSellPoints_nonneg inp.lastPrice 2 (by norm_num) pv.r2
      have a3 := paPivotSellPoints_nonneg inp.lastPrice 3 (by norm_num) pv.r3
      dsimp only
      linarith
  linarith

/-- C3 (amended): the buy and sell branches of the price-action
`_generate_signal` clamp strength to [0, 100] (for non-negative input
strengths), and the aggregator's success probability is always clamped to
[0, 100]; the neutral branch's strength `max(buy, sell) * 5`, however, is
not clamped and can exceed 100 (see the counterexample). -/
theorem pa_strength_and_probability_bounds :
    (∀ inp : PAInput, 0 ≤ inp.trendStrength →
      (∀ p ∈ inp.candlePatterns, 0 ≤ p.2) →
      (∀ p ∈ inp.momentumSignals, 0 ≤ p.2) →
      (paGenerateSignal inp).1 ≠ "neutral" →
      0 ≤ (paGenerateSignal inp).2 ∧ (paGenerateSignal inp).2 ≤ 100) ∧
    ∀ (tfSignals : List String) (sig : String) (strength : ℚ)
      (newsImpact : Option ℚ) (trendInfo : Option (String × ℚ)),
      0 ≤ calculateSuccessProbability tfSignals sig strength newsImpact trendInfo ∧
      calculateSuccessProbability tfSignals sig strength newsImpact trendInfo ≤ 100 := by
  constructor
  · intro inp ht hc hm hne
    have hbuy := paBuyScore_nonneg inp ht hc hm
    have hsell := paSellScore_nonneg inp ht hc hm
    unfold paGenerateSignal at hne ⊢
    dsimp only at hne ⊢
    split_ifs at hne ⊢ with h1 h2
    · exact ⟨le_min (by norm_num) (by linarith), min_le_left _ _⟩
    · exact ⟨le_min (by norm_num) (by linarith), min_le_left _ _⟩
    · exact absurd rfl hne
  · intro tfSignals sig strength newsImpact trendInfo
    unfold calculateSuccessProbability
    dsimp only
    constructor
    · exact le_max_left 0 _
    · exact max_le (by norm_num) (min_le_right _ _)

/-- A reachable detector-result shape on which the neutral branch
overflows: trend bullish at full strength, three momentum buys and two
bullish chart patterns against three full-strength bearish candle
patterns and three bearish chart patterns. -/
def paOverflowInput : PAInput :=
  { trend := "bullish", trendStrength := 100,
    candlePatterns := [("bearish", 100), ("bearish", 100), ("bearish", 100)],
    momentumSignals := [("buy", 100), ("buy", 100), ("buy", 100)],
    patterns := ["Bullish Trend", "Bullish Flag", "Bearish Top", "Bearish Flag",
                 "Bearish Divergence"],
    pivots := none, lastPrice := 1 }

unseal Rat.add Rat.sub Rat.mul Rat.inv Rat.ofScientific in
/-- Counterexample to C3 as stated: on `paOverflowInput` the accumulators
are 25 (buy) and 22.5 (sell), within the 3-point margin, so the neutral
branch fires and returns strength `max(25, 22.5) * 5 = 125 > 100`. -/
theorem paGenerateSignal_counterexample :
    paGenerateSignal paOverflowInput = ("neutral", 125) ∧
    ¬((paGenerateSignal paOverflowInput).2 ≤ 100) := by
  refine ⟨?_, ?_⟩ <;> decide

/-- The trend-only buy input of the C3 witness. -/
def paTrendOnlyInput : PAInput :=
  { trend := "bullish", trendStrength := 100, candlePatterns := [], momentumSignals := [],
    patterns := [], pivots := none, lastPrice := 1 }

unseal Rat.add Rat.sub Rat.mul Rat.inv Rat.ofScientific in
/-- Witness for C3 (amended): a pure-trend buy input produces a
non-neutral signal whose strength 50 lies in [0, 100], and a concrete
probability call lies in [0, 100]. -/
theorem pa_strength_and_probability_bounds_witness :
    (paGenerateSignal paTrendOnlyInput).1 ≠ "neutral" ∧
    0 ≤ (paGenerateSignal paTrendOnlyInput).2 ∧ (paGenerateSignal paTrendOnlyInput).2 ≤ 100 ∧
    0 ≤ calculateSuccessProbability ["buy"] "buy" 62 (some 1) none ∧
    calculateSuccessProbability ["buy"] "buy" 62 (some 1) none ≤ 100 :=
  ⟨by decide,
   (pa_strength_and_probability_bounds.1 paTrendOnlyInput (by norm_num [paTrendOnlyInput])
     (by simp [paTrendOnlyInput]) (by simp [paTrendOnlyInput]) (by decide)).1,
   (pa_strength_and_probability_bounds.1 paTrendOnlyInput (by norm_num [paTrendOnlyInput])
     (by simp [paTrendOnlyInput]) (by simp [paTrendOnlyInput]) (by decide)).2,
   (pa_strength_and_probability_bounds.2 ["buy"] "buy" 62 (some 1) none).1,
   (pa_strength_and_probability_bounds.2 ["buy"] "buy" 62 (some 1) none).2⟩

/-- The status overwrite keeps the signal id. -/
theorem applyStatusUpdate_id (s : CandidateSignal) (status : String) (d : Bool) :
    (applyStatusUpdate s status d).id = s.id := by
  unfold applyStatusUpdate
  split_ifs <;> rfl

/-- Replacing the first signal with a given id updates what a subsequent
lookup of that id returns, whatever the old status was. -/
theorem getSignalById_updateFirstSignal (store : List CandidateSignal)
    (sid status : String) (d : Bool) (s : CandidateSignal)
    (h : getSignalById store sid = some s) :
    getSignalById (updateFirstSignal store sid status d) sid =
      some (applyStatusUpdate s status d) := by
  induction store with
  | nil => simp [getSignalById] at h
  | cons a rest ih =>
    by_cases ha : a.id = sid
    · have hs : a = s := by
        unfold getSignalById at h
        rw [List.find?_cons_of_pos _ (by simp [ha])] at h
        exact Option.some.inj h
      unfold updateFirstSignal
      rw [if_pos ha]
      unfold getSignalById
      rw [List.find?_cons_of_pos _ (by simp [applyStatusUpdate_id, ha])]
      rw [hs]
    · have h' : getSignalById rest sid = some s := by
        unfold getSignalById at h ⊢
        rw [List.find?_cons_of_neg _ (by simp [ha])] at h
        exact h
      unfold updateFirstSignal
      rw [if_neg ha]
      unfold getSignalById
      rw [List.find?_cons_of_neg _ (by simp [ha])]
      exact ih h'

/-- C2 (amended): `update_signal_status` overwrites the status of the
stored signal with the given id unconditionally — including transitions
out of the terminal states `executed`, `rejected` and `expired` — and
reports success whenever the id is found.  Monotonicity is enforced only
by the callers' check-then-act (`telegram_bot.py` checks
`status == "pending"` before calling), not by `update_signal_status`
itself. -/
theorem updateSignalStatus_overwrites (store : List CandidateSignal)
    (sid status : String) (d : Bool) (s : CandidateSignal)
    (h : getSignalById store sid = some s) :
    (updateSignalStatus store sid status d).2 = true ∧
    getSignalById (updateSignalStatus store sid status d).1 sid =
      some (applyStatusUpdate s status d) := by
  unfold updateSignalStatus
  rw [h]
  exact ⟨rfl, getSignalById_updateFirstSignal store sid status d s h⟩

/-- A stored signal already in the terminal status `executed`. -/
def c2ExecutedSignal : CandidateSignal :=
  { id := "sig-1", symbol := "EURUSD", signal := "buy", entryPrice := 10, stopLoss := 9,
    takeProfit := 13, riskReward := 3, strength := 80, successProbability := 80,
    executed := true, status := "executed" }

/-- Counterexample to C2 as stated: a signal whose status is already the
terminal `executed` is moved to `rejected` by a later
`update_signal_status` call, which also reports success — the first
transition out of `pending` is not the only accepted one. -/
theorem updateSignalStatus_counterexample :
    (getSignalById [c2ExecutedSignal] "sig-1").map CandidateSignal.status = some "executed" ∧
    (updateSignalStatus [c2ExecutedSignal] "sig-1" "rejected" false).2 = true ∧
    ((updateSignalStatus [c2ExecutedSignal] "sig-1" "rejected" false).1.map
      CandidateSignal.status) = ["rejected"] := by
  refine ⟨?_, ?_, ?_⟩ <;> decide

/-- Witness for C2 (amended): the executed signal is found and a later
`expired` update overwrites its terminal status. -/
theorem updateSignalStatus_overwrites_witness :
    getSignalById [c2ExecutedSignal] "sig-1" = some c2ExecutedSignal ∧
    (updateSignalStatus [c2ExecutedSignal] "sig-1" "expired" false).2 = true ∧
    getSignalById (updateSignalStatus [c2ExecutedSignal] "sig-1" "expired" false).1 "sig-1" =
      some (applyStatusUpdate c2ExecutedSignal "expired" false) :=
  ⟨by decide,
   (updateSignalStatus_overwrites [c2ExecutedSignal] "sig-1" "expired" false
     c2ExecutedSignal (by decide)).1,
   (updateSignalStatus_overwrites [c2ExecutedSignal] "sig-1" "expired" false
     c2ExecutedSignal (by decide)).2⟩

/-- `_combine_signals` only ever emits buy, sell or neutral. -/
theorem combineSignals_signal_cases (summary : AnalysisSummary) (pred : PredictionResult) :
    (combineSignals summary pred).signal = "buy" ∨
    (combineSignals summary pred).signal = "sell" ∨
    (combineSignals summary pred).signal = "neutral" := by
  unfold combineSignals
  dsimp only
  split_ifs <;> simp

/-- C8: whenever `generate_signal` returns a signal, its direction is buy
or sell (never neutral), its blended strength is at least the minimum 40,
and its risk/reward is at least the configured minimum (`min_risk_reward`,
default 1.5); inputs failing any of these yield `none`. -/
theorem generateSignal_emission_guards (sid symbol : String) (hasError : Bool)
    (lastPrice : Option ℚ) (summary : AnalysisSummary) (pred : PredictionResult)
    (slTp : Option SLTP) (minRiskReward : ℚ) (sig : CandidateSignal)
    (h : generateSignal sid symbol hasError lastPrice summary pred slTp minRiskReward =
      some sig) :
    (sig.signal = "buy" ∨ sig.signal = "sell") ∧ 40 ≤ sig.strength ∧
    minRiskReward ≤ sig.riskReward := by
  unfold generateSignal at h
  cases hasError with
  | true => simp at h
  | false =>
    rw [if_neg Bool.false_ne_true] at h
    cases lastPrice with
    | none => simp at h
    | some price =>
      simp only at h
      by_cases hguard : (combineSignals summary pred).signal = "neutral" ∨
          (combineSignals summary pred).strength < 40
      · rw [if_pos hguard] at h
        simp at h
      · rw [if_neg hguard] at h
        push_neg at hguard
        cases slTp with
        | none => simp at h
        | some st =>
          simp only at h
          by_cases hrr : calcRiskReward (combineSignals summary pred).signal price
              st.stopLoss st.takeProfit < minRiskReward
          · rw [if_pos hrr] at h
            simp at h
          · rw [if_neg hrr] at h
            have hsig := Option.some.inj h
            push_neg at hrr
            refine ⟨?_, ?_, ?_⟩
            · rcases combineSignals_signal_cases summary pred with hc | hc | hc
              · left; rw [← hsig]; exact hc
              · right; rw [← hsig]; exact hc
              · exact absurd hc hguard.1
            · rw [← hsig]
              exact hguard.2
            · rw [← hsig]
              exact hrr

/-- The aggregate-summary input of the C8 witness. -/
def c8Summary : AnalysisSummary :=
  { signal := "buy", strength := 80, successProbability := 80, keyTimeframes := [] }

/-- The forecaster input of the C8 witness. -/
def c8Prediction : PredictionResult := { direction := "buy", confidence := 80 }

/-- The candidate signal the C8 witness inputs produce. -/
def c8Candidate : CandidateSignal :=
  { id := "w8", symbol := "EURUSD", signal := "buy", entryPrice := 10, stopLoss := 9,
    takeProfit := 13, riskReward := 3, strength := 80, successProbability := 80,
    executed := false, status := "pending" }

unseal Rat.add Rat.sub Rat.mul Rat.inv Rat.ofScientific in
/-- Witness for C8: a strong agreeing buy input emits a candidate with
direction buy, strength 80 ≥ 40 and risk/reward 3 ≥ 1.5. -/
theorem generateSignal_emission_guards_witness :
    generateSignal "w8" "EURUSD" false (some 10) c8Summary c8Prediction
      (some { stopLoss := 9, takeProfit := 13 }) (3 / 2) = some c8Candidate ∧
    (c8Candidate.signal = "buy" ∨ c8Candidate.signal = "sell") ∧
    40 ≤ c8Candidate.strength ∧ (3 / 2 : ℚ) ≤ c8Candidate.riskReward := by
  have h : generateSignal "w8" "EURUSD" false (some 10) c8Summary c8Prediction
      (some { stopLoss := 9, takeProfit := 13 }) (3 / 2) = some c8Candidate := by decide
  exact ⟨h, generateSignal_emission_guards "w8" "EURUSD" false (some 10) c8Summary
    c8Prediction (some { stopLoss := 9, takeProfit := 13 }) (3 / 2) c8Candidate h⟩

/-- The three-neutral detector triple: all three signals agree. -/
def neutralDetector : DetectorResult :=
  { signal := "neutral", strength := 0, supportLevels := [], resistanceLevels := [],
    patterns := [] }

/-- Counterexample to C6 as stated: when all three detectors say
`neutral`, all three agree, yet the summarizer's confidence is `low`,
not `high` — agreement is only counted on buy and sell votes. -/
theorem createTimeframeSummary_counterexample :
    neutralDetector.signal = "neutral" ∧
    (createTimeframeSummary neutralDetector neutralDetector neutralDetector).confidence = "low" ∧
    ¬(createTimeframeSummary neutralDetector neutralDetector neutralDetector).confidence = "high" := by
  refine ⟨rfl, ?_, ?_⟩ <;> decide

/-- The spec's worked example: detectors (buy, 80), (buy, 60), (sell, 50). -/
def exampleBuy80 : DetectorResult :=
  { signal := "buy", strength := 80, supportLevels := [], resistanceLevels := [], patterns := [] }

/-- Second detector of the worked example. -/
def exampleBuy60 : DetectorResult :=
  { signal := "buy", strength := 60, supportLevels := [], resistanceLevels := [], patterns := [] }

/-- Third detector of the worked example. -/
def exampleSell50 : DetectorResult :=
  { signal := "sell", strength := 50, supportLevels := [], resistanceLevels := [], patterns := [] }

unseal Rat.add Rat.sub Rat.mul Rat.inv Rat.ofScientific in
/-- C6 (amended): the summarizer picks the side with strictly more votes
(buy against sell), confidence is `high` exactly when all three detectors
vote buy or all three vote sell, `medium` exactly when exactly two vote
buy or exactly two vote sell (and not three), else `low`; strength is the
arithmetic mean.  On the spec's example {buy 80, buy 60, sell 50} this
gives (buy, medium, 190/3 ≈ 63.33). -/
theorem createTimeframeSummary_spec (ict smc pa : DetectorResult) :
    ((createTimeframeSummary ict smc pa).signal =
      if [ict.signal, smc.signal, pa.signal].countP (· = "sell") <
          [ict.signal, smc.signal, pa.signal].countP (· = "buy") then "buy"
      else if [ict.signal, smc.signal, pa.signal].countP (· = "buy") <
          [ict.signal, smc.signal, pa.signal].countP (· = "sell") then "sell"
      else "neutral") ∧
    ((createTimeframeSummary ict smc pa).confidence = "high" ↔
      ([ict.signal, smc.signal, pa.signal].countP (· = "buy") = 3 ∨
       [ict.signal, smc.signal, pa.signal].countP (· = "sell") = 3)) ∧
    ((createTimeframeSummary ict smc pa).confidence = "medium" ↔
      (¬([ict.signal, smc.signal, pa.signal].countP (· = "buy") = 3 ∨
         [ict.signal, smc.signal, pa.signal].countP (· = "sell") = 3) ∧
       ([ict.signal, smc.signal, pa.signal].countP (· = "buy") = 2 ∨
        [ict.signal, smc.signal, pa.signal].countP (· = "sell") = 2))) ∧
    (createTimeframeSummary ict smc pa).strength =
      (ict.strength + smc.strength + pa.strength) / 3 ∧
    (createTimeframeSummary exampleBuy80 exampleBuy60 exampleSell50).signal = "buy" ∧
    (createTimeframeSummary exampleBuy80 exampleBuy60 exampleSell50).confidence = "medium" ∧
    (createTimeframeSummary exampleBuy80 exampleBuy60 exampleSell50).strength = 190 / 3 := by
  have hmh : ("medium" : String) ≠ "high" := by decide
  have hlh : ("low" : String) ≠ "high" := by decide
  have hlm : ("low" : String) ≠ "medium" := by decide
  refine ⟨rfl, ?_, ?_, rfl, by decide, by decide, by decide⟩
  · show (if _ ∨ _ then "high" else if _ ∨ _ then "medium" else "low") = "high" ↔ _
    split_ifs with h1 h2
    · simp [h1]
    · simp [hmh, h1]
    · simp [hlh, h1]
  · show (if _ ∨ _ then "high" else if _ ∨ _ then "medium" else "low") = "medium" ↔ _
    split_ifs with h1 h2
    · simp [hmh.symm, h1]
    · simp [h1, h2]
    · simp [hlm, h1, h2]

/-- The fixed prior weight of every timeframe is positive. -/
theorem timeframeWeight_pos (tf : Timeframe) : 0 < timeframeWeight tf := by
  cases tf <;> norm_num [timeframeWeight]

/-- Summing a list divided pointwise by a constant. -/
theorem list_sum_div (l : List ℚ) (c : ℚ) : (l.map (· / c)).sum = l.sum / c := by
  induction l with
  | nil => simp
  | cons x xs ih => simp [ih, add_div]

/-- C7: For any non-empty duplicate-free collection of present timeframes
drawn from {M5, M15, H1, H4, D1}, the renormalized weights of the present
timeframes sum to exactly 1. -/
theorem renormalized_weights_sum_to_one (present : List Timeframe)
    (hne : present ≠ []) (_hnd : present.Nodup) :
    (present.map (renormWeight present)).sum = 1 := by
  have hpos : 0 < totalWeight present := by
    unfold totalWeight
    apply List.sum_pos
    · intro x hx
      obtain ⟨tf, _, rfl⟩ := List.mem_map.mp hx
      exact timeframeWeight_pos tf
    · simpa using hne
  have hmap : present.map (renormWeight present) =
      present.map (fun tf => timeframeWeight tf / totalWeight present) := by
    apply List.map_congr_left
    intro tf htf
    unfold renormWeight
    rw [if_pos ⟨hpos, htf⟩]
  rw [hmap]
  have : present.map (fun tf => timeframeWeight tf / totalWeight present) =
      (present.map timeframeWeight).map (· / totalWeight present) := by
    rw [List.map_map]
    rfl
  rw [this, list_sum_div]
  exact div_self (ne_of_gt hpos)

/-- Witness for C7: the subset {M15, H4} renormalizes to weights summing
to 1 (0.10 and 0.30 become 0.25 and 0.75). -/
theorem renormalized_weights_sum_to_one_witness :
    ([Timeframe.M15, Timeframe.H4] ≠ []) ∧
    ([Timeframe.M15, Timeframe.H4].Nodup) ∧
    ([Timeframe.M15, Timeframe.H4].map (renormWeight [Timeframe.M15, Timeframe.H4])).sum = 1 :=
  ⟨by decide, by decide,
   renormalized_weights_sum_to_one [Timeframe.M15, Timeframe.H4] (by decide) (by decide)⟩

end Forexx
